import Mathlib

/-!
Verification of the libxml2 fuzz harnesses (`src/fuzz/lint.c`,
`src/fuzz/xmlIO-uri.c`) and of two artefacts of the public tree header
(`src/include/libxml/tree.h`): the `xmlElementType` enumeration and the
`XML_GET_CONTENT` accessor macro.

The C sources are embedded shallowly:

* machine integers become `Nat` with explicit `% 2 ^ w` / `% INT_MAX`
  arithmetic where the C code performs it;
* the fuzz input is a list of bytes (`Fin 256`);
* the byte-consuming readers of the fuzz support library (`fuzz.c`, which
  is not part of this source tree) are modelled from the specification;
* the argv array synthesized by the CLI harness becomes a
  `List (Option String)` where `none` stands for a `NULL` pointer;
* each harness iteration is a pure function from its inputs (fuzz bytes,
  the previous value of the `static int initialized` flag, the value of
  `xmlMemUsed()`, and the outcomes of the external libxml2 calls) to a
  trace record of the externally visible actions it performed.
-/

set_option maxRecDepth 4096

abbrev Byte := Fin 256

/-! ## `xmlElementType` (src/include/libxml/tree.h, lines 139-181) -/

/-- The node-kind enumeration `xmlElementType` of `tree.h`: exactly the
twenty enumerators that appear in the C `typedef enum`, in source order. -/
inductive xmlElementType where
  | XML_ELEMENT_NODE
  | XML_ATTRIBUTE_NODE
  | XML_TEXT_NODE
  | XML_CDATA_SECTION_NODE
  | XML_ENTITY_REF_NODE
  | XML_ENTITY_NODE
  | XML_PI_NODE
  | XML_COMMENT_NODE
  | XML_DOCUMENT_NODE
  | XML_DOCUMENT_TYPE_NODE
  | XML_DOCUMENT_FRAG_NODE
  | XML_NOTATION_NODE
  | XML_HTML_DOCUMENT_NODE
  | XML_DTD_NODE
  | XML_ELEMENT_DECL
  | XML_ATTRIBUTE_DECL
  | XML_ENTITY_DECL
  | XML_NAMESPACE_DECL
  | XML_XINCLUDE_START
  | XML_XINCLUDE_END
  deriving DecidableEq, Fintype, Repr

/-- The integer value the C `enum` assigns to each enumerator
(`XML_ELEMENT_NODE = 1`, ..., `XML_XINCLUDE_END = 20`). -/
def xmlElementType.val : xmlElementType → Nat
  | .XML_ELEMENT_NODE => 1
  | .XML_ATTRIBUTE_NODE => 2
  | .XML_TEXT_NODE => 3
  | .XML_CDATA_SECTION_NODE => 4
  | .XML_ENTITY_REF_NODE => 5
  | .XML_ENTITY_NODE => 6
  | .XML_PI_NODE => 7
  | .XML_COMMENT_NODE => 8
  | .XML_DOCUMENT_NODE => 9
  | .XML_DOCUMENT_TYPE_NODE => 10
  | .XML_DOCUMENT_FRAG_NODE => 11
  | .XML_NOTATION_NODE => 12
  | .XML_HTML_DOCUMENT_NODE => 13
  | .XML_DTD_NODE => 14
  | .XML_ELEMENT_DECL => 15
  | .XML_ATTRIBUTE_DECL => 16
  | .XML_ENTITY_DECL => 17
  | .XML_NAMESPACE_DECL => 18
  | .XML_XINCLUDE_START => 19
  | .XML_XINCLUDE_END => 20

/-- `tree.h` line 185: `#define XML_DOCB_DOCUMENT_NODE 21` — a bare macro
kept for backward compatibility, not an enumerator of `xmlElementType`. -/
def XML_DOCB_DOCUMENT_NODE : Nat := 21

/-! ## `struct _xmlNode` and `XML_GET_CONTENT` (tree.h, lines 43-44, 536-572) -/

/-- The fields of `struct _xmlNode` that the `XML_GET_CONTENT` macro and the
claims here can observe.  The tree-linkage pointers (`children`, `last`,
`parent`, `next`, `prev`, `doc`), `ns`, `properties`, `nsDef`, `psvi` and
`_private` of the C struct are graph pointers irrelevant to the accessor and
are omitted from this record.  `content` is an `xmlChar *`, hence nullable:
`none` models a `NULL` pointer. -/
structure xmlNode where
  type : xmlElementType
  name : Option String
  content : Option String
  line : Nat
  extra : Nat

/-- `tree.h` lines 43-44:
`#define XML_GET_CONTENT(n) ((n)->type == XML_ELEMENT_NODE ? NULL : (n)->content)` -/
def XML_GET_CONTENT (n : xmlNode) : Option String :=
  if n.type = .XML_ELEMENT_NODE then none else n.content

/-! ## The custom input callbacks (identical in both fuzz files) -/

namespace LintFile

/-- `src/fuzz/lint.c` line 125: `int myMatch(const char *URI) { return 1; }` -/
def myMatch (URI : String) : Int := 1

/-- `src/fuzz/lint.c` line 129: `void *myOpen(const char *URI) { return NULL; }` -/
def myOpen (URI : String) : Option Unit := none

/-- `src/fuzz/lint.c` line 133: `int myRead(void *ctx, char *buf, int len) { return -1; }` -/
def myRead (ctx : Option Unit) (buf : String) (len : Int) : Int := -1

/-- `src/fuzz/lint.c` line 137: `int myClose(void *ctx) { return 0; }` -/
def myClose (ctx : Option Unit) : Int := 0

end LintFile

namespace UriFile

/-- `src/fuzz/xmlIO-uri.c` line 23: `int myMatch(const char *URI) { return 1; }` -/
def myMatch (URI : String) : Int := 1

/-- `src/fuzz/xmlIO-uri.c` line 27: `void *myOpen(const char *URI) { return NULL; }` -/
def myOpen (URI : String) : Option Unit := none

/-- `src/fuzz/xmlIO-uri.c` line 31: `int myRead(void *ctx, char *buf, int len) { return -1; }` -/
def myRead (ctx : Option Unit) (buf : String) (len : Int) : Int := -1

/-- `src/fuzz/xmlIO-uri.c` line 35: `int myClose(void *ctx) { return 0; }` -/
def myClose (ctx : Option Unit) : Int := 0

end UriFile

/-! ## Model of the fuzz support library reader (`fuzz.c`, not in this tree) -/

/-- Modelled from the spec: accumulator loop of `xmlFuzzReadInt` — the fuzz
support library `fuzz.c` is not part of this source tree.  Per §4.9 of the
spec the input is consumed as fixed-width chunks (4-byte and 1-byte reads);
each consumed byte is shifted into the accumulator (big-endian), and when the
data runs out the reader stops, so a read from an empty stream yields `0`. -/
def readIntAux : Nat → Nat → List Byte → Nat × List Byte
  | 0, acc, s => (acc, s)
  | _ + 1, acc, [] => (acc, [])
  | n + 1, acc, b :: rest => readIntAux n (acc * 256 + b.val) rest

/-- Modelled from the spec: `xmlFuzzReadInt(size)` reads up to `size` bytes
from the front of the remaining fuzz data and returns them as an unsigned
integer together with the remaining stream (`fuzz.c` is not in this tree). -/
def xmlFuzzReadInt (n : Nat) (s : List Byte) : Nat × List Byte :=
  readIntAux n 0 s

/-! ## The CLI harness (`src/fuzz/lint.c`) -/

namespace LintFile

/-- `src/fuzz/lint.c` lines 43-91: the `switches` table.  `none` models the
`NULL` separator entries of the C array. -/
def switches : List (Option String) := [
  some "--auto",
  some "--c14n",
  some "--c14n11",
  some "--compress",
  some "--copy",
  some "--debug",
  none,
  some "--dropdtd",
  some "--dtdattr",
  some "--exc-c14n",
  some "--format",
  none,
  some "--huge",
  some "--insert",
  some "--loaddtd",
  some "--load-trace",
  none,
  some "--noblanks",
  some "--nocdata",
  some "--nocompact",
  some "--nodefdtd",
  some "--nodict",
  some "--noenc",
  some "--noent",
  some "--nofixup-base-uris",
  some "--nonet",
  some "--noout",
  some "--nowarning",
  none,
  some "--noxincludenode",
  some "--nsclean",
  some "--oldxml10",
  some "--pedantic",
  some "--postvalid",
  some "--push",
  some "--pushsmall",
  some "--quiet",
  some "--recover",
  some "--repeat",
  some "--sax1",
  none,
  some "--timing",
  some "--valid",
  some "--version",
  some "--walker",
  some "--xinclude",
  some "--xmlout"]

/-- `src/fuzz/lint.c` line 92: `numSwitches = sizeof(switches)/sizeof(switches[0])`. -/
def numSwitches : Nat := switches.length

/-- One iteration body of the switch-selection loop (lint.c lines 181-182):
`if ((uval & 1) && (switches[i] != NULL)) pushArg(switches[i]);` -/
def switchStep (sw : Option String) (uval : Nat) : List String :=
  if uval % 2 = 1 then
    match sw with
    | some t => [t]
    | none => []
  else []

/-- The switch-selection loop of lint.c lines 178-184: at every index
divisible by 32 a fresh 4-byte word is read into `uval`; bit 0 selects the
current switch, then `uval >>= 1`.  Returns the pushed switch strings, the
final (shifted) value of `uval`, and the remaining fuzz stream. -/
def switchLoop : List (Option String) → Nat → Nat → List Byte →
    List String × Nat × List Byte
  | [], _, uval, s => ([], uval, s)
  | sw :: rest, i, uval, s =>
    let rs := if i % 32 = 0 then xmlFuzzReadInt 4 s else (uval, s)
    let out := switchLoop rest (i + 1) (rs.1 / 2) rs.2
    (switchStep sw rs.1 ++ out.1, out.2.1, out.2.2)

/-- `INT_MAX` of the 32-bit C `int`. -/
def INT_MAX : Nat := 2147483647

/-- lint.c lines 207-216: the value passed to `--maxmem`, when the flag is
pushed (`uval > 0`).  `size` is the byte length of the fuzz input. -/
def maxmemVal (size uval : Nat) : Option Nat :=
  if uval > 0 then
    some (if size ≤ (INT_MAX - 2000) / 20 then uval % (size * 20 + 2000)
          else uval % INT_MAX)
  else none

/-- lint.c lines 218-223: the value passed to `--max-ampl`, when pushed
(`ival >= 1 && ival <= 5`). -/
def maxAmplVal (ival : Nat) : Option Nat :=
  if 1 ≤ ival ∧ ival ≤ 5 then some ival else none

/-- lint.c lines 225-230: the value passed to `--pretty`, when pushed
(`ival != 0`); the pushed number is `ival % 4`. -/
def prettyVal (ival : Nat) : Option Nat :=
  if ival ≠ 0 then some (ival % 4) else none

/-- Decimal rendering of an unsigned integer, as `snprintf(buf, 20, "%u", v)`
produces it for the values (< 2^32) that the harness prints.  Structural
fuel recursion: 32 digits is far more than any pushed value needs. -/
def uintDigitsAux : Nat → Nat → List Char
  | 0, _ => []
  | fuel + 1, n =>
    if n < 10 then [Char.ofNat (48 + n)]
    else uintDigitsAux fuel (n / 10) ++ [Char.ofNat (48 + n % 10)]

/-- The string handed to `pushArg` for a numeric option value. -/
def uintToString (n : Nat) : String := String.mk (uintDigitsAux 32 n)

/-- The `pushArg(flag); pushArg(buf)` pair for an optional numeric option:
pushed exactly when the harness computed a value for it. -/
def optFlag (flag : String) (v : Option Nat) : List String :=
  match v with
  | some m => [flag, uintToString m]
  | none => []

/-- lint.c lines 232-248: `sval = xmlFuzzReadString(&ssize); if (ssize > 0)
{ pushArg(flag); pushArg(sval); }` for `--encode`, `--pattern`, `--xpath`. -/
def strFlag (flag : String) (s : String) : List String :=
  if s.length > 0 then [flag, s] else []

/-- lint.c lines 189-205: the parsing-mode flag chosen by `uval & 3` after
the switch loop (case 0: XML parser, no flag). -/
def modeArgs : Nat → List String
  | 0 => []
  | 1 => ["--html"]
  | 2 => ["--stream"]
  | _ => ["--sax"]

/-- The values the harness extracts from the control bytes of one fuzz
input, in the exact read order of lint.c lines 178-230: two 4-byte words for
the switch loop (consumed inside `switchLoop`), one 4-byte word for
`--maxmem`, and one byte each for `--max-ampl` and `--pretty`. -/
structure LintPlan where
  swArgs : List String
  mode : Nat
  maxmem : Option Nat
  maxAmpl : Option Nat
  prettyByte : Nat
  pretty : Option Nat

/-- Runs the byte-consuming phase of `LLVMFuzzerTestOneInput` (lint.c lines
178-230) on the fuzz input `data`. -/
def lintPlan (data : List Byte) : LintPlan :=
  let r0 := switchLoop switches 0 0 data
  let r1 := xmlFuzzReadInt 4 r0.2.2
  let r2 := xmlFuzzReadInt 1 r1.2
  let r3 := xmlFuzzReadInt 1 r2.2
  { swArgs := r0.1
    mode := r0.2.1 % 4
    maxmem := maxmemVal data.length r1.1
    maxAmpl := maxAmplVal r2.1
    prettyByte := r3.1
    pretty := prettyVal r3.1 }

/-- The argv entries pushed before the document URL (lint.c lines 173-248):
`"xmllint" "--nocatalogs"`, the selected switches, the parsing-mode flag,
the three numeric options, and the three string options. -/
def lintArgvPre (data : List Byte) (enc pat xp : String) : List String :=
  let p := lintPlan data
  ["xmllint", "--nocatalogs"] ++ p.swArgs ++ modeArgs p.mode
    ++ optFlag "--maxmem" p.maxmem
    ++ optFlag "--max-ampl" p.maxAmpl
    ++ optFlag "--pretty" p.pretty
    ++ strFlag "--encode" enc
    ++ strFlag "--pattern" pat
    ++ strFlag "--xpath" xp

/-- lint.c line 253: the test `docUrl[0] == '-'` on the C string `docUrl`
(an empty C string has `'\0'`, not `'-'`, at index 0). -/
def urlStartsWithDash (s : String) : Bool :=
  s.data.head? = some ('-' : Char)

/-- The per-iteration inputs of `LLVMFuzzerTestOneInput` in lint.c:
the fuzz bytes, and the outcomes of the external calls the body makes.
`outNonNull` is whether `xmlParserInputBufferCreateUrl` stores a non-`NULL`
buffer; `memUsed` is the value `xmlMemUsed()` returns at the leak check;
`encodeStr`/`patternStr`/`xpathStr` are the strings `xmlFuzzReadString`
yields (modelled from the spec: `fuzz.c` is not in this tree, §4.9 calls
them arbitrary strings, with `ssize > 0` exactly when the string is
nonempty); `docEntity` is `some url` when `xmlFuzzMainEntity` finds a main
document entity whose URL is `url`, `none` when `docBuffer == NULL`. -/
structure LintOracle where
  data : List Byte
  outNonNull : Bool
  memUsed : Int
  encodeStr : String
  patternStr : String
  xpathStr : String
  docEntity : Option String

/-- The externally visible actions of one iteration of the lint.c harness. -/
structure LintTrace where
  registered : Bool
  calledCreateUrl : Bool
  freedBuffer : Bool
  aborted : Bool
  argv : List (Option String)
  maxmemArg : Option Nat
  maxAmplArg : Option Nat
  prettyByte : Nat
  prettyArg : Option Nat
  calledXmllint : Bool
  dataCleanup : Bool
  freedArgv : Bool
  retval : Option Int

/-- lint.c lines 250-255 and 268-271: the tail of the argv array.  When the
main entity is missing or its URL starts with `'-'` the harness jumps to
`exit` without pushing anything more; otherwise it pushes the URL and the
`NULL` terminator. -/
def lintDocPart (docEntity : Option String) : List (Option String) :=
  match docEntity with
  | none => []
  | some url => if urlStartsWithDash url then [] else [some url, none]

/-- One iteration of `LLVMFuzzerTestOneInput` (lint.c lines 141-272), as a
pure function of the previous value of the `static int initialized` flag and
the oracle.  Returns the trace and the new value of the flag.  The body in
source order: one-shot callback registration (152-156); the direct
`xmlParserInputBufferCreateUrl` probe on null-terminated input (159-163);
the `xmlMemUsed()` leak check, which aborts on a nonzero counter (166-169);
argv synthesis (171-248); the document test and `goto exit` (250-254); the
`xmllintMain` call (264); cleanup and `return 0` (268-271). -/
def LLVMFuzzerTestOneInput (initOld : Bool) (o : LintOracle) : LintTrace × Bool :=
  let registered := !initOld
  let nullTerm : Bool :=
    decide (0 < o.data.length) && decide (o.data.getLast? = some (0 : Byte))
  let freed := nullTerm && o.outNonNull
  if o.memUsed ≠ 0 then
    ({ registered := registered
       calledCreateUrl := nullTerm
       freedBuffer := freed
       aborted := true
       argv := []
       maxmemArg := none
       maxAmplArg := none
       prettyByte := 0
       prettyArg := none
       calledXmllint := false
       dataCleanup := false
       freedArgv := false
       retval := none }, true)
  else
    let p := lintPlan o.data
    let pre := lintArgvPre o.data o.encodeStr o.patternStr o.xpathStr
    let skipDoc : Bool :=
      match o.docEntity with
      | none => true
      | some url => urlStartsWithDash url
    ({ registered := registered
       calledCreateUrl := nullTerm
       freedBuffer := freed
       aborted := false
       argv := pre.map some ++ lintDocPart o.docEntity
       maxmemArg := p.maxmem
       maxAmplArg := p.maxAmpl
       prettyByte := p.prettyByte
       prettyArg := p.pretty
       calledXmllint := !skipDoc
       dataCleanup := true
       freedArgv := true
       retval := some 0 }, true)

/-- Registration count of a run of consecutive harness iterations starting
from a given state of the `static int initialized` flag (lint.c 152-156). -/
def lintRegCount : Bool → List LintOracle → Nat
  | _, [] => 0
  | ini, o :: rest =>
    let r := LLVMFuzzerTestOneInput ini o
    (if r.1.registered then 1 else 0) + lintRegCount r.2 rest

end LintFile

/-! ## The URL-input harness (`src/fuzz/xmlIO-uri.c`) -/

namespace UriFile

/-- The externally visible actions of one iteration of the xmlIO-uri.c
harness. -/
structure UriTrace where
  registered : Bool
  calledCreateUrl : Bool
  freedBuffer : Bool
  retval : Int

/-- One iteration of `LLVMFuzzerTestOneInput` (xmlIO-uri.c lines 39-56), as
a pure function of the previous value of the `static int initialized` flag,
the input bytes, and whether `xmlParserInputBufferCreateUrl` stores a
non-`NULL` buffer.  Source order: the null-termination guard returns 0 at
once (line 40); one-shot callback registration (lines 42-46); the
`xmlParserInputBufferCreateUrl` call (line 49); `xmlFreeParserInputBuffer`
when `out` is non-`NULL` (lines 51-53); `return 0` (line 55). -/
def LLVMFuzzerTestOneInput (initOld : Bool) (data : List Byte)
    (outNonNull : Bool) : UriTrace × Bool :=
  if data.length = 0 ∨ data.getLast? ≠ some (0 : Byte) then
    ({ registered := false
       calledCreateUrl := false
       freedBuffer := false
       retval := 0 }, initOld)
  else
    ({ registered := !initOld
       calledCreateUrl := true
       freedBuffer := outNonNull
       retval := 0 }, true)

/-- Registration count of a run of consecutive harness iterations starting
from a given state of the `static int initialized` flag (xmlIO-uri.c
lines 42-46). -/
def uriRegCount : Bool → List (List Byte × Bool) → Nat
  | _, [] => 0
  | ini, i :: rest =>
    let r := LLVMFuzzerTestOneInput ini i.1 i.2
    (if r.1.registered then 1 else 0) + uriRegCount r.2 rest

end UriFile

/-! ## Helper lemmas about the CLI harness -/

namespace LintFile

theorem switchStep_length (sw : Option String) (u : Nat) :
    (switchStep sw u).length ≤ 1 := by
  unfold switchStep
  split
  · cases sw <;> simp
  · simp

theorem switchStep_mem {sw : Option String} {u : Nat} {x : String}
    (h : x ∈ switchStep sw u) : sw = some x := by
  unfold switchStep at h
  split at h
  · cases sw <;> simp_all
  · simp_all

theorem switchLoop_length (l : List (Option String)) :
    ∀ (i u : Nat) (s : List Byte), (switchLoop l i u s).1.length ≤ l.length := by
  induction l with
  | nil => intro i u s; simp [switchLoop]
  | cons sw rest ih =>
    intro i u s
    simp only [switchLoop, List.length_append, List.length_cons]
    have h1 := switchStep_length sw (if i % 32 = 0 then xmlFuzzReadInt 4 s else (u, s)).1
    have h2 := ih (i + 1) ((if i % 32 = 0 then xmlFuzzReadInt 4 s else (u, s)).1 / 2)
      (if i % 32 = 0 then xmlFuzzReadInt 4 s else (u, s)).2
    omega

theorem switchLoop_mem (l : List (Option String)) :
    ∀ (i u : Nat) (s : List Byte) (x : String),
      x ∈ (switchLoop l i u s).1 → some x ∈ l := by
  induction l with
  | nil => intro i u s x h; simp [switchLoop] at h
  | cons sw rest ih =>
    intro i u s x h
    simp only [switchLoop, List.mem_append] at h
    rcases h with h | h
    · simp [switchStep_mem h]
    · exact List.mem_cons_of_mem _ (ih _ _ _ _ h)

theorem maxmemVal_lt {size uval m : Nat} (h : maxmemVal size uval = some m) :
    m < size * 20 + 2000 := by
  unfold maxmemVal at h
  split at h
  · simp only [Option.some.injEq] at h
    subst h
    split
    · exact Nat.mod_lt _ (by omega)
    · have hgt : ¬ size ≤ (INT_MAX - 2000) / 20 := by assumption
      have hs : 107374083 ≤ size := by
        have : (INT_MAX - 2000) / 20 = 107374082 := by decide
        omega
      have hlt : uval % INT_MAX < INT_MAX := Nat.mod_lt _ (by decide)
      unfold INT_MAX at *
      omega
  · exact absurd h (by simp)

theorem maxAmplVal_bounds {i a : Nat} (h : maxAmplVal i = some a) :
    1 ≤ a ∧ a ≤ 5 := by
  unfold maxAmplVal at h
  split at h <;> simp_all

theorem prettyVal_eq {i p : Nat} (h : prettyVal i = some p) :
    p = i % 4 ∧ p ≤ 3 := by
  unfold prettyVal at h
  split at h <;> simp_all
  omega

theorem digit_ne_dash {d : Nat} (hd : d < 10) :
    Char.ofNat (48 + d) ≠ ('-' : Char) := by
  interval_cases d <;> decide

theorem uintDigitsAux_no_dash (fuel : Nat) :
    ∀ n : Nat, ('-' : Char) ∉ uintDigitsAux fuel n := by
  induction fuel with
  | zero => intro n; simp [uintDigitsAux]
  | succ f ih =>
    intro n
    unfold uintDigitsAux
    split
    · simp
      exact fun h => digit_ne_dash (by assumption) h.symm
    · simp only [List.mem_append, List.mem_singleton]
      rintro (h | h)
      · exact ih (n / 10) h
      · exact digit_ne_dash (Nat.mod_lt _ (by omega)) h.symm

theorem uintToString_ne {n : Nat} {s : String} (hs : ('-' : Char) ∈ s.data) :
    uintToString n ≠ s := by
  intro h
  have hd : ('-' : Char) ∈ (uintToString n).data := by rw [h]; exact hs
  exact uintDigitsAux_no_dash 32 n hd

/-- The three parsing-mode flags of lint.c lines 189-205. -/
def isModeFlag (s : String) : Prop :=
  s = "--html" ∨ s = "--stream" ∨ s = "--sax"

instance (s : String) : Decidable (isModeFlag s) := by
  unfold isModeFlag; infer_instance

/-- How many entries of a string list are parsing-mode flags. -/
def modeFlagCount (l : List String) : Nat :=
  l.countP (fun x => decide (isModeFlag x))

theorem modeFlagCount_append (a b : List String) :
    modeFlagCount (a ++ b) = modeFlagCount a + modeFlagCount b :=
  List.countP_append _ a b

theorem modeFlagCount_eq_zero {l : List String}
    (h : ∀ x ∈ l, ¬ isModeFlag x) : modeFlagCount l = 0 := by
  unfold modeFlagCount
  rw [List.countP_eq_zero]
  intro a ha
  simpa using h a ha

theorem uintToString_not_modeFlag (n : Nat) : ¬ isModeFlag (uintToString n) := by
  rintro (h | h | h) <;> exact uintToString_ne (by decide) h

theorem switches_not_modeFlag {x : String} (h : some x ∈ switches) :
    ¬ isModeFlag x := by
  rintro (rfl | rfl | rfl) <;> revert h <;> decide

theorem modeFlagCount_optFlag {f : String} (v : Option Nat)
    (hf : ¬ isModeFlag f) : modeFlagCount (optFlag f v) = 0 := by
  apply modeFlagCount_eq_zero
  intro x hx
  unfold optFlag at hx
  match v with
  | none => simp at hx
  | some m =>
    simp only [List.mem_cons, List.not_mem_nil, or_false] at hx
    rcases hx with rfl | rfl
    · exact hf
    · exact uintToString_not_modeFlag m

theorem modeFlagCount_strFlag {f s : String}
    (hf : ¬ isModeFlag f) (hs : ¬ isModeFlag s) :
    modeFlagCount (strFlag f s) = 0 := by
  apply modeFlagCount_eq_zero
  intro x hx
  unfold strFlag at hx
  split at hx
  · simp only [List.mem_cons, List.not_mem_nil, or_false] at hx
    rcases hx with rfl | rfl
    · exact hf
    · exact hs
  · simp at hx

theorem modeFlagCount_modeArgs (m : Nat) :
    modeFlagCount (modeArgs m) = if m = 0 then 0 else 1 := by
  match m with
  | 0 => decide
  | 1 => decide
  | 2 => decide
  | k + 3 =>
    show modeFlagCount ["--sax"] = if k + 3 = 0 then 0 else 1
    simp [modeFlagCount, isModeFlag]

theorem modeFlagCount_pre (data : List Byte) (enc pat xp : String)
    (h1 : ¬ isModeFlag enc) (h2 : ¬ isModeFlag pat) (h3 : ¬ isModeFlag xp) :
    modeFlagCount (lintArgvPre data enc pat xp) =
      if (lintPlan data).mode = 0 then 0 else 1 := by
  unfold lintArgvPre
  simp only [modeFlagCount_append]
  rw [modeFlagCount_eq_zero (l := ["xmllint", "--nocatalogs"]) (by decide)]
  rw [modeFlagCount_eq_zero (fun x hx => switches_not_modeFlag
    (switchLoop_mem switches 0 0 data x (by simpa [lintPlan] using hx)))]
  rw [modeFlagCount_optFlag _ (by decide), modeFlagCount_optFlag _ (by decide),
    modeFlagCount_optFlag _ (by decide)]
  rw [modeFlagCount_strFlag (by decide) h1, modeFlagCount_strFlag (by decide) h2,
    modeFlagCount_strFlag (by decide) h3]
  rw [modeFlagCount_modeArgs]
  omega

end LintFile

/-! ## Remaining helper lemmas (argv shape, registration counting) -/

namespace LintFile

theorem optFlag_length (f : String) (v : Option Nat) : (optFlag f v).length ≤ 2 := by
  unfold optFlag
  match v with
  | none => simp
  | some m => simp

theorem strFlag_length (f s : String) : (strFlag f s).length ≤ 2 := by
  unfold strFlag
  split <;> simp

theorem modeArgs_length (m : Nat) : (modeArgs m).length ≤ 1 := by
  match m with
  | 0 => decide
  | 1 => decide
  | 2 => decide
  | k + 3 => exact Nat.le_refl 1

theorem lintArgvPre_length (data : List Byte) (enc pat xp : String) :
    (lintArgvPre data enc pat xp).length ≤ 62 := by
  unfold lintArgvPre
  simp only [List.length_append]
  have hsw : (lintPlan data).swArgs.length ≤ 47 := by
    have h := switchLoop_length switches 0 0 data
    have hl : switches.length = 47 := rfl
    simpa [lintPlan, hl] using h
  have hm := modeArgs_length (lintPlan data).mode
  have h1 := optFlag_length "--maxmem" (lintPlan data).maxmem
  have h2 := optFlag_length "--max-ampl" (lintPlan data).maxAmpl
  have h3 := optFlag_length "--pretty" (lintPlan data).pretty
  have h4 := strFlag_length "--encode" enc
  have h5 := strFlag_length "--pattern" pat
  have h6 := strFlag_length "--xpath" xp
  simp only [List.length_cons, List.length_nil]
  omega

theorem lintDocPart_length (d : Option String) : (lintDocPart d).length ≤ 2 := by
  unfold lintDocPart
  match d with
  | none => exact Nat.zero_le 2
  | some url =>
    dsimp only
    split <;> simp

theorem lint_step_snd (ini : Bool) (o : LintOracle) :
    (LLVMFuzzerTestOneInput ini o).2 = true := by
  unfold LLVMFuzzerTestOneInput
  split <;> rfl

theorem lint_step_registered (ini : Bool) (o : LintOracle) :
    (LLVMFuzzerTestOneInput ini o).1.registered = !ini := by
  unfold LLVMFuzzerTestOneInput
  split <;> rfl

theorem lintRegCount_true (l : List LintOracle) : lintRegCount true l = 0 := by
  induction l with
  | nil => rfl
  | cons o rest ih =>
    simp only [lintRegCount, lint_step_registered, lint_step_snd, ih,
      Bool.not_true, Bool.false_eq_true, if_false]

theorem lintRegCount_le_one (l : List LintOracle) : lintRegCount false l ≤ 1 := by
  match l with
  | [] => exact Nat.zero_le 1
  | o :: rest =>
    simp only [lintRegCount, lint_step_registered, lint_step_snd,
      lintRegCount_true, Bool.not_false, if_true]
    omega

end LintFile

namespace UriFile

theorem uri_step_cases (ini : Bool) (d : List Byte) (nn : Bool) :
    ((LLVMFuzzerTestOneInput ini d nn).1.registered = false ∧
      (LLVMFuzzerTestOneInput ini d nn).2 = ini) ∨
    ((LLVMFuzzerTestOneInput ini d nn).1.registered = !ini ∧
      (LLVMFuzzerTestOneInput ini d nn).2 = true) := by
  unfold LLVMFuzzerTestOneInput
  split
  · exact Or.inl ⟨rfl, rfl⟩
  · exact Or.inr ⟨rfl, rfl⟩

theorem uriRegCount_true (l : List (List Byte × Bool)) : uriRegCount true l = 0 := by
  induction l with
  | nil => rfl
  | cons i rest ih =>
    simp only [uriRegCount]
    rcases uri_step_cases true i.1 i.2 with ⟨h1, h2⟩ | ⟨h1, h2⟩ <;>
      rw [h1, h2] <;> simp [ih]

theorem uriRegCount_le_one (l : List (List Byte × Bool)) : uriRegCount false l ≤ 1 := by
  induction l with
  | nil => exact Nat.zero_le 1
  | cons i rest ih =>
    simp only [uriRegCount]
    rcases uri_step_cases false i.1 i.2 with ⟨h1, h2⟩ | ⟨h1, h2⟩ <;> rw [h1, h2]
    · simpa using ih
    · simp [uriRegCount_true]

end UriFile

/-! ## Claim theorems -/

/-- Claim C8: `xmlElementType` consists of exactly twenty variants carrying
the consecutive values 1 through 20 in declaration order (element=1 ...
xinclude-end=20), every variant's value lies in 1..20, and the legacy value
21 (`XML_DOCB_DOCUMENT_NODE`, a bare macro) is not the value of any
variant of the enumeration. -/
theorem claim_C8_element_type_enum :
    Fintype.card xmlElementType = 20 ∧
    xmlElementType.XML_ELEMENT_NODE.val = 1 ∧
    xmlElementType.XML_ATTRIBUTE_NODE.val = 2 ∧
    xmlElementType.XML_TEXT_NODE.val = 3 ∧
    xmlElementType.XML_CDATA_SECTION_NODE.val = 4 ∧
    xmlElementType.XML_ENTITY_REF_NODE.val = 5 ∧
    xmlElementType.XML_ENTITY_NODE.val = 6 ∧
    xmlElementType.XML_PI_NODE.val = 7 ∧
    xmlElementType.XML_COMMENT_NODE.val = 8 ∧
    xmlElementType.XML_DOCUMENT_NODE.val = 9 ∧
    xmlElementType.XML_DOCUMENT_TYPE_NODE.val = 10 ∧
    xmlElementType.XML_DOCUMENT_FRAG_NODE.val = 11 ∧
    xmlElementType.XML_NOTATION_NODE.val = 12 ∧
    xmlElementType.XML_HTML_DOCUMENT_NODE.val = 13 ∧
    xmlElementType.XML_DTD_NODE.val = 14 ∧
    xmlElementType.XML_ELEMENT_DECL.val = 15 ∧
    xmlElementType.XML_ATTRIBUTE_DECL.val = 16 ∧
    xmlElementType.XML_ENTITY_DECL.val = 17 ∧
    xmlElementType.XML_NAMESPACE_DECL.val = 18 ∧
    xmlElementType.XML_XINCLUDE_START.val = 19 ∧
    xmlElementType.XML_XINCLUDE_END.val = 20 ∧
    (∀ t : xmlElementType, 1 ≤ t.val ∧ t.val ≤ 20) ∧
    (∀ t : xmlElementType, t.val ≠ XML_DOCB_DOCUMENT_NODE) ∧
    XML_DOCB_DOCUMENT_NODE = 21 := by
  decide

/-- Claim C9: for every node `n`, `XML_GET_CONTENT(n)` yields `NULL` when
`n` is an element node and yields `n`'s `content` field for every other
node kind. -/
theorem claim_C9_get_content (n : xmlNode) :
    (n.type = .XML_ELEMENT_NODE → XML_GET_CONTENT n = none) ∧
    (n.type ≠ .XML_ELEMENT_NODE → XML_GET_CONTENT n = n.content) := by
  constructor <;> intro h <;> simp [XML_GET_CONTENT, h]

/-- Witness for C9 at two concrete nodes: an element node (first hypothesis
discharged) and a text node (second hypothesis discharged). -/
theorem claim_C9_get_content_witness :
    XML_GET_CONTENT ⟨.XML_ELEMENT_NODE, some "root", some "x", 1, 0⟩ = none ∧
    XML_GET_CONTENT ⟨.XML_TEXT_NODE, none, some "hello", 1, 0⟩ =
      (⟨.XML_TEXT_NODE, none, some "hello", 1, 0⟩ : xmlNode).content :=
  ⟨(claim_C9_get_content _).1 rfl, (claim_C9_get_content _).2 (by decide)⟩

/-- Claim C1: in both harnesses, `xmlParserInputBufferCreateUrl` is invoked
exactly when the input is nonempty and its last byte is the NUL byte, and
the resulting buffer is freed with `xmlFreeParserInputBuffer` exactly when
the call produced a non-`NULL` buffer; empty or non-null-terminated inputs
never reach the creation function. -/
theorem claim_C1_url_probe (ini : Bool) (data : List Byte) (outNonNull : Bool)
    (o : LintFile.LintOracle) :
    ((UriFile.LLVMFuzzerTestOneInput ini data outNonNull).1.calledCreateUrl = true
      ↔ 0 < data.length ∧ data.getLast? = some (0 : Byte)) ∧
    ((UriFile.LLVMFuzzerTestOneInput ini data outNonNull).1.freedBuffer = true
      ↔ (UriFile.LLVMFuzzerTestOneInput ini data outNonNull).1.calledCreateUrl = true
          ∧ outNonNull = true) ∧
    ((LintFile.LLVMFuzzerTestOneInput ini o).1.calledCreateUrl = true
      ↔ 0 < o.data.length ∧ o.data.getLast? = some (0 : Byte)) ∧
    ((LintFile.LLVMFuzzerTestOneInput ini o).1.freedBuffer = true
      ↔ (LintFile.LLVMFuzzerTestOneInput ini o).1.calledCreateUrl = true
          ∧ o.outNonNull = true) := by
  refine ⟨?_, ?_, ?_, ?_⟩
  · unfold UriFile.LLVMFuzzerTestOneInput
    split
    · next h =>
      simp only [Bool.false_eq_true, false_iff]
      rintro ⟨h1, h2⟩
      rcases h with h | h
      · omega
      · exact h h2
    · next h =>
      push_neg at h
      simp only [true_iff]
      exact ⟨by omega, h.2⟩
  · unfold UriFile.LLVMFuzzerTestOneInput
    split <;> simp
  · unfold LintFile.LLVMFuzzerTestOneInput
    split <;> simp
  · unfold LintFile.LLVMFuzzerTestOneInput
    split <;> simp

/-- Claim C6: every path of `LLVMFuzzerTestOneInput` that returns, returns
0, in both the CLI harness (where the only non-returning path is the leak
abort, modelled as `retval = none`) and the URL-input harness. -/
theorem claim_C6_returns_zero (ini : Bool) (o : LintFile.LintOracle)
    (data : List Byte) (nn : Bool) :
    ((LintFile.LLVMFuzzerTestOneInput ini o).1.retval = none ∨
      (LintFile.LLVMFuzzerTestOneInput ini o).1.retval = some 0) ∧
    (UriFile.LLVMFuzzerTestOneInput ini data nn).1.retval = 0 := by
  constructor
  · unfold LintFile.LLVMFuzzerTestOneInput
    split
    · exact Or.inl rfl
    · exact Or.inr rfl
  · unfold UriFile.LLVMFuzzerTestOneInput
    split <;> rfl

/-- Claim C2: in the CLI harness the leak assertion aborts exactly when
`xmlMemUsed()` is nonzero at the check point, and an aborting iteration
stops before any CLI-argument construction (empty argv, no `xmllintMain`
call, no return value); when the counter is zero the iteration never
aborts. -/
theorem claim_C2_leak_abort (ini : Bool) (o : LintFile.LintOracle) :
    ((LintFile.LLVMFuzzerTestOneInput ini o).1.aborted = true ↔ o.memUsed ≠ 0) ∧
    ((LintFile.LLVMFuzzerTestOneInput ini o).1.aborted = true →
      (LintFile.LLVMFuzzerTestOneInput ini o).1.argv = [] ∧
      (LintFile.LLVMFuzzerTestOneInput ini o).1.calledXmllint = false ∧
      (LintFile.LLVMFuzzerTestOneInput ini o).1.retval = none) := by
  unfold LintFile.LLVMFuzzerTestOneInput
  split <;> simp_all

/-- Witness for C2 at a concrete oracle with a nonzero memory counter: the
iteration aborts with no argv and no return. -/
theorem claim_C2_leak_abort_witness :
    ((LintFile.LLVMFuzzerTestOneInput true
        ⟨[], false, 7, "", "", "", none⟩).1.aborted = true) ∧
    (LintFile.LLVMFuzzerTestOneInput true
        ⟨[], false, 7, "", "", "", none⟩).1.argv = [] := by
  have h := claim_C2_leak_abort true ⟨[], false, 7, "", "", "", none⟩
  have ha := h.1.mpr (by decide)
  exact ⟨ha, (h.2 ha).1⟩

/-- Claim C5: when the main document entity is absent or its URL starts
with a dash, an iteration of the CLI harness (one that passes the leak
check) skips the document: `xmllintMain` is not invoked, yet fuzz-data
cleanup runs, the argv array is freed, and the iteration returns 0. -/
theorem claim_C5_skip_document (ini : Bool) (o : LintFile.LintOracle)
    (hmem : o.memUsed = 0)
    (hdoc : o.docEntity = none ∨
      ∃ url, o.docEntity = some url ∧ LintFile.urlStartsWithDash url = true) :
    (LintFile.LLVMFuzzerTestOneInput ini o).1.calledXmllint = false ∧
    (LintFile.LLVMFuzzerTestOneInput ini o).1.dataCleanup = true ∧
    (LintFile.LLVMFuzzerTestOneInput ini o).1.freedArgv = true ∧
    (LintFile.LLVMFuzzerTestOneInput ini o).1.retval = some 0 := by
  unfold LintFile.LLVMFuzzerTestOneInput
  rw [if_neg (by simp [hmem])]
  rcases hdoc with h | ⟨url, hurl, hdash⟩ <;> simp_all

/-- Witness for C5 at a concrete oracle whose main entity is absent and one
whose URL starts with a dash. -/
theorem claim_C5_skip_document_witness :
    ((LintFile.LLVMFuzzerTestOneInput false
        ⟨[], false, 0, "", "", "", none⟩).1.calledXmllint = false) ∧
    ((LintFile.LLVMFuzzerTestOneInput false
        ⟨[], false, 0, "", "", "", some "-x"⟩).1.retval = some 0) :=
  ⟨(claim_C5_skip_document false _ rfl (Or.inl rfl)).1,
   (claim_C5_skip_document false _ rfl (Or.inr ⟨"-x", rfl, by decide⟩)).2.2.2⟩

/-- Claim C7: the custom input callbacks of the two fuzz files are
extensionally identical (`myMatch` always 1, `myOpen` always `NULL`,
`myRead` always -1, `myClose` always 0), and each harness registers the
family via `xmlRegisterInputCallbacks` at most once across any run of
iterations, guarded by its `static int initialized` flag. -/
theorem claim_C7_callbacks_identical :
    LintFile.myMatch = UriFile.myMatch ∧
    LintFile.myOpen = UriFile.myOpen ∧
    LintFile.myRead = UriFile.myRead ∧
    LintFile.myClose = UriFile.myClose ∧
    (∀ u, LintFile.myMatch u = 1) ∧
    (∀ u, LintFile.myOpen u = none) ∧
    (∀ c b l, LintFile.myRead c b l = -1) ∧
    (∀ c, LintFile.myClose c = 0) ∧
    (∀ runs, LintFile.lintRegCount false runs ≤ 1) ∧
    (∀ runs, UriFile.uriRegCount false runs ≤ 1) :=
  ⟨rfl, rfl, rfl, rfl, fun _ => rfl, fun _ => rfl, fun _ _ _ => rfl, fun _ => rfl,
   LintFile.lintRegCount_le_one, UriFile.uriRegCount_le_one⟩

/-- Claim C3: whenever the CLI harness pushes `--maxmem` its numeric
argument is strictly below `size * 20 + 2000`; a pushed `--max-ampl`
argument lies in `[1, 5]`; a pushed `--pretty` argument is the read byte
modulo 4, hence lies in `[0, 3]`. -/
theorem claim_C3_numeric_args (ini : Bool) (o : LintFile.LintOracle) :
    (∀ m, (LintFile.LLVMFuzzerTestOneInput ini o).1.maxmemArg = some m →
      m < o.data.length * 20 + 2000) ∧
    (∀ a, (LintFile.LLVMFuzzerTestOneInput ini o).1.maxAmplArg = some a →
      1 ≤ a ∧ a ≤ 5) ∧
    (∀ p, (LintFile.LLVMFuzzerTestOneInput ini o).1.prettyArg = some p →
      p = (LintFile.LLVMFuzzerTestOneInput ini o).1.prettyByte % 4 ∧ p ≤ 3) := by
  unfold LintFile.LLVMFuzzerTestOneInput
  split
  · simp
  · refine ⟨?_, ?_, ?_⟩
    · intro m hm
      exact LintFile.maxmemVal_lt (by simpa [LintFile.lintPlan] using hm)
    · intro a ha
      exact LintFile.maxAmplVal_bounds (by simpa [LintFile.lintPlan] using ha)
    · intro p hp
      exact LintFile.prettyVal_eq (by simpa [LintFile.lintPlan] using hp)

/-- Concrete oracle for the C3 witness: eight zero control bytes for the
switch loop, then the 4-byte word 7 for `--maxmem`, the byte 3 for
`--max-ampl` and the byte 2 for `--pretty`. -/
def c3oracle : LintFile.LintOracle :=
  ⟨[0, 0, 0, 0, 0, 0, 0, 0, 0, 0, 0, 7, 3, 2], false, 0, "", "", "", none⟩

/-- Witness for C3: at `c3oracle` the harness pushes `--maxmem 7`,
`--max-ampl 3` and `--pretty 2`, and the three bounds hold there. -/
theorem claim_C3_numeric_args_witness :
    7 < c3oracle.data.length * 20 + 2000 ∧
    (1 ≤ 3 ∧ 3 ≤ 5) ∧
    (2 = (LintFile.LLVMFuzzerTestOneInput false c3oracle).1.prettyByte % 4 ∧ 2 ≤ 3) :=
  ⟨(claim_C3_numeric_args false c3oracle).1 7 (by decide),
   (claim_C3_numeric_args false c3oracle).2.1 3 (by decide),
   (claim_C3_numeric_args false c3oracle).2.2 2 (by decide)⟩

namespace LintFile

theorem not_dash_not_modeFlag {url : String}
    (h : urlStartsWithDash url = false) : ¬ isModeFlag url := by
  rintro (rfl | rfl | rfl) <;> exact absurd h (by decide)

theorem modeFlagCount_docPart (d : Option String) :
    modeFlagCount ((lintDocPart d).filterMap id) = 0 := by
  unfold lintDocPart
  match d with
  | none => rfl
  | some url =>
    dsimp only
    split
    · rfl
    · next h =>
      have hno : ¬ isModeFlag url := not_dash_not_modeFlag (by simpa using h)
      simp [modeFlagCount, List.countP_cons, decide_eq_false hno]

theorem mode_lt_four (data : List Byte) : (lintPlan data).mode < 4 := by
  unfold lintPlan
  exact Nat.mod_lt _ (by omega)

theorem mem_pre_of_modeArg {data : List Byte} {enc pat xp : String} {f : String}
    (hf : f ∈ modeArgs (lintPlan data).mode) :
    f ∈ lintArgvPre data enc pat xp := by
  unfold lintArgvPre
  simp only [List.mem_append]
  exact Or.inl (Or.inl (Or.inl (Or.inl (Or.inl (Or.inl (Or.inr hf))))))

end LintFile

/-- Counterexample oracle for C4: control bytes put the parsing mode at 3
(`--sax` pushed) while the `--encode` string read from the fuzz data is the
literal string `--html`. -/
def c4badOracle : LintFile.LintOracle :=
  ⟨[0, 0, 0, 0, 0, 1, 128, 0], false, 0, "--html", "", "", none⟩

/-- Counterexample to C4 as stated: at `c4badOracle` the synthesized argv
contains both `--sax` (the selected mode flag) and `--html` (as the value
of `--encode`), so two of the three mode flags appear in the argv. -/
theorem claim_C4_counterexample :
    "--sax" ∈ ((LintFile.LLVMFuzzerTestOneInput false c4badOracle).1.argv).filterMap id ∧
    "--html" ∈ ((LintFile.LLVMFuzzerTestOneInput false c4badOracle).1.argv).filterMap id ∧
    LintFile.modeFlagCount
      (((LintFile.LLVMFuzzerTestOneInput false c4badOracle).1.argv).filterMap id) = 2 := by
  decide

/-- Claim C4 (amended): after the switches chunk, the two low bits of the
remaining switch-selection state select exactly one of four parsing modes
(the mode value is below 4): value 0 pushes no mode flag, value 1 pushes
`--html`, value 2 pushes `--stream`, value 3 pushes `--sax`; and provided
none of the three fuzz strings passed as the `--encode` / `--pattern` /
`--xpath` values is itself one of these three flags, at most one (exactly
`0` for mode 0, exactly `1` otherwise) of the three mode flags appears in
the synthesized argv. -/
theorem claim_C4_mode_selection (ini : Bool) (o : LintFile.LintOracle)
    (hmem : o.memUsed = 0)
    (h1 : ¬ LintFile.isModeFlag o.encodeStr)
    (h2 : ¬ LintFile.isModeFlag o.patternStr)
    (h3 : ¬ LintFile.isModeFlag o.xpathStr) :
    (LintFile.lintPlan o.data).mode < 4 ∧
    LintFile.modeFlagCount
        (((LintFile.LLVMFuzzerTestOneInput ini o).1.argv).filterMap id) =
      (if (LintFile.lintPlan o.data).mode = 0 then 0 else 1) ∧
    ((LintFile.lintPlan o.data).mode = 1 →
      some "--html" ∈ (LintFile.LLVMFuzzerTestOneInput ini o).1.argv) ∧
    ((LintFile.lintPlan o.data).mode = 2 →
      some "--stream" ∈ (LintFile.LLVMFuzzerTestOneInput ini o).1.argv) ∧
    ((LintFile.lintPlan o.data).mode = 3 →
      some "--sax" ∈ (LintFile.LLVMFuzzerTestOneInput ini o).1.argv) := by
  have hargv : (LintFile.LLVMFuzzerTestOneInput ini o).1.argv =
      (LintFile.lintArgvPre o.data o.encodeStr o.patternStr o.xpathStr).map some
        ++ LintFile.lintDocPart o.docEntity := by
    unfold LintFile.LLVMFuzzerTestOneInput
    rw [if_neg (by simp [hmem])]
  have hmemb : ∀ f : String, f ∈ LintFile.modeArgs (LintFile.lintPlan o.data).mode →
      some f ∈ (LintFile.LLVMFuzzerTestOneInput ini o).1.argv := by
    intro f hf
    rw [hargv]
    exact List.mem_append_left _
      (List.mem_map_of_mem some (LintFile.mem_pre_of_modeArg hf))
  refine ⟨LintFile.mode_lt_four o.data, ?_, ?_, ?_, ?_⟩
  · rw [hargv]
    rw [List.filterMap_append]
    rw [LintFile.modeFlagCount_append]
    have hpre : (((LintFile.lintArgvPre o.data o.encodeStr o.patternStr
        o.xpathStr).map some).filterMap id) =
        LintFile.lintArgvPre o.data o.encodeStr o.patternStr o.xpathStr := by
      simp
    rw [hpre, LintFile.modeFlagCount_pre o.data _ _ _ h1 h2 h3,
      LintFile.modeFlagCount_docPart]
    omega
  · intro hm
    exact hmemb "--html" (by rw [hm]; exact List.mem_singleton.mpr rfl)
  · intro hm
    exact hmemb "--stream" (by rw [hm]; exact List.mem_singleton.mpr rfl)
  · intro hm
    exact hmemb "--sax" (by rw [hm]; exact List.mem_singleton.mpr rfl)

/-- Concrete oracle for the C4 witness: same control bytes as the
counterexample (mode 3) but with empty option strings. -/
def c4oracle : LintFile.LintOracle :=
  ⟨[0, 0, 0, 0, 0, 1, 128, 0], false, 0, "", "", "", none⟩

/-- Witness for C4 (amended) at `c4oracle`: mode 3 was selected and the
argv indeed carries `--sax`. -/
theorem claim_C4_mode_selection_witness :
    some "--sax" ∈ (LintFile.LLVMFuzzerTestOneInput false c4oracle).1.argv :=
  (claim_C4_mode_selection false c4oracle rfl (by decide) (by decide)
    (by decide)).2.2.2.2 (by decide)

/-- Counterexample to C10 as stated: the switches table has 47 entries, so
the allocated capacity `numSwitches + 5 + 6*2` is 64 slots, not 63, and the
table holds 42 non-`NULL` switches, not 41. -/
theorem claim_C10_counterexample :
    LintFile.numSwitches + 5 + 6 * 2 = 64 ∧
    ¬ (LintFile.numSwitches + 5 + 6 * 2 = 63) ∧
    (LintFile.switches.filterMap id).length = 42 ∧
    ¬ ((LintFile.switches.filterMap id).length = 41) := by
  decide

/-- Claim C10 (amended): on every iteration the number of argv entries the
CLI harness writes never exceeds the allocated capacity of
`numSwitches + 5 + 6*2 = 64` slots (at most 2 fixed arguments, 42 non-NULL
switches, 1 mode flag, 6 option/value pairs, 1 document URL and 1
terminator), a `NULL` switch-table entry is never pushed — every argv entry
before the last is non-`NULL` — and when the argv is handed to
`xmllintMain` its final entry is the `NULL` terminator. -/
theorem claim_C10_argv_bounds (ini : Bool) (o : LintFile.LintOracle) :
    (LintFile.LLVMFuzzerTestOneInput ini o).1.argv.length ≤
      LintFile.numSwitches + 5 + 6 * 2 ∧
    (∀ x ∈ (LintFile.LLVMFuzzerTestOneInput ini o).1.argv.dropLast, x ≠ none) ∧
    ((LintFile.LLVMFuzzerTestOneInput ini o).1.calledXmllint = true →
      (LintFile.LLVMFuzzerTestOneInput ini o).1.argv.getLast? = some none) := by
  have hcap : LintFile.numSwitches + 5 + 6 * 2 = 64 := rfl
  unfold LintFile.LLVMFuzzerTestOneInput
  split
  · refine ⟨by simp [hcap], by simp, by simp⟩
  · dsimp only
    refine ⟨?_, ?_, ?_⟩
    · have hp := LintFile.lintArgvPre_length o.data o.encodeStr o.patternStr o.xpathStr
      have hd := LintFile.lintDocPart_length o.docEntity
      simp only [List.length_append, List.length_map]
      omega
    · intro x hx
      rcases ho : o.docEntity with _ | url
      · rw [ho] at hx
        simp only [LintFile.lintDocPart, List.append_nil] at hx
        have hx2 := List.dropLast_subset _ hx
        rcases List.mem_map.mp hx2 with ⟨y, _, rfl⟩
        simp
      · rw [ho] at hx
        unfold LintFile.lintDocPart at hx
        dsimp only at hx
        by_cases hdash : LintFile.urlStartsWithDash url = true
        · rw [if_pos hdash] at hx
          simp only [List.append_nil] at hx
          have hx2 := List.dropLast_subset _ hx
          rcases List.mem_map.mp hx2 with ⟨y, _, rfl⟩
          simp
        · rw [if_neg hdash] at hx
          rw [show (LintFile.lintArgvPre o.data o.encodeStr o.patternStr
              o.xpathStr).map some ++ [some url, none] =
              ((LintFile.lintArgvPre o.data o.encodeStr o.patternStr
              o.xpathStr).map some ++ [some url]) ++ [none] by simp] at hx
          rw [List.dropLast_concat] at hx
          rcases List.mem_append.mp hx with h | h
          · rcases List.mem_map.mp h with ⟨y, _, rfl⟩
            simp
          · rw [List.mem_singleton.mp h]
            simp
    · intro hcall
      rcases ho : o.docEntity with _ | url
      · rw [ho] at hcall; simp at hcall
      · rw [ho] at hcall
        dsimp only at hcall
        have hdash : LintFile.urlStartsWithDash url = false := by
          simpa using hcall
        unfold LintFile.lintDocPart
        dsimp only
        rw [if_neg (by simp [hdash])]
        rw [show (LintFile.lintArgvPre o.data o.encodeStr o.patternStr
            o.xpathStr).map some ++ [some url, none] =
            ((LintFile.lintArgvPre o.data o.encodeStr o.patternStr
            o.xpathStr).map some ++ [some url]) ++ [none] by simp]
        exact List.getLast?_concat _

/-- Concrete oracle for the C10 witness: empty fuzz data and a main entity
with URL `u`, so the full argv with terminator is handed to `xmllintMain`. -/
def c10oracle : LintFile.LintOracle := ⟨[], false, 0, "", "", "", some "u"⟩

/-- Witness for C10 (amended) at `c10oracle`: the entry `"xmllint"` sits
before the last slot and is non-`NULL`, and the argv handed to
`xmllintMain` ends with the `NULL` terminator. -/
theorem claim_C10_argv_bounds_witness :
    (some "xmllint" ≠ (none : Option String)) ∧
    (LintFile.LLVMFuzzerTestOneInput false c10oracle).1.argv.getLast? = some none :=
  ⟨(claim_C10_argv_bounds false c10oracle).2.1 (some "xmllint") (by decide),
   (claim_C10_argv_bounds false c10oracle).2.2 (by decide)⟩
